import Mathlib

/-!
Verification of the Model Registry & Prediction Serving subsystem of the
TraitAI backend, shallowly embedded in Lean 4.

Embedded source files:
* `backend/app/database/crud.py`      — catalog rows and `set_production_model`
* `backend/app/ml/model_registry.py`  — `load_model`, `get_production_model`
* `backend/app/ml/features.py`        — `safe_divide`, `calculate_nutrient_ratios`,
  intensity features, interactions, frequency encoding
* `backend/app/ml/predictor.py`       — `PredictionService.predict` / `batch_predict`

Conventions: Python floats are modelled as `Rat`; a raised Python exception is
an `Except.error` carrying the exception text; a pandas single-row DataFrame is
an ordered association list of column name to cell value.
-/

namespace TraitAI

/-! ## Catalog rows and sessions (`database/crud.py`) -/

/-- One `ModelVersion` catalog row, restricted to the fields relevant to the
production-flag logic. -/
structure ModelVersionRow where
  model_version_id : Nat
  version_tag : String
  is_production : Bool
deriving DecidableEq, Repr

abbrev Catalog := List ModelVersionRow

/-- A SQLAlchemy session (`autocommit=False`): `pending` is the state visible
inside the open transaction, `durable` the last committed state.  `get_db`
closes the session without committing, which discards `pending`. -/
structure DbSession where
  pending : Catalog
  durable : Catalog
deriving DecidableEq, Repr

/-- `db.query(ModelVersion).filter(is_production == True).update({"is_production": False})`:
clears the flag on every row that has it. -/
def clearProduction (c : Catalog) : Catalog :=
  c.map (fun r => if r.is_production then { r with is_production := false } else r)

/-- `crud.get_model_version`: `filter(model_version_id == id).first()`. -/
def get_model_version (c : Catalog) (id : Nat) : Option ModelVersionRow :=
  c.find? (fun r => r.model_version_id == id)

/-- The ORM mutation `db_mv.is_production = True` on the single object returned
by `.first()`: sets the flag on the first row with the given id. -/
def setFirstById : Catalog → Nat → Catalog
  | [], _ => []
  | r :: rs, id =>
      if r.model_version_id == id then { r with is_production := true } :: rs
      else r :: setFirstById rs id

/-- `crud.set_production_model(db, model_version_id)` (crud.py:408-424).
Clears every production flag, then looks the id up; on a hit it sets the flag
and commits, on a miss it returns `None` without committing. -/
def set_production_model (s : DbSession) (id : Nat) : DbSession × Option ModelVersionRow :=
  let p1 := clearProduction s.pending
  match get_model_version p1 id with
  | some _ =>
      let p2 := setFirstById p1 id
      ({ pending := p2, durable := p2 }, get_model_version p2 id)
  | none => ({ pending := p1, durable := s.durable }, none)

/-- Number of catalog rows flagged as production. -/
def prodCount (c : Catalog) : Nat :=
  c.countP (fun r => r.is_production)

/-- Run a sequence of `set_production_model` calls, threading the session. -/
def applyCalls (s : DbSession) (ids : List Nat) : DbSession :=
  ids.foldl (fun st id => (set_production_model st id).1) s

/-- A concrete session holding exactly one catalog row, flagged as production,
in both the transaction view and the committed state. -/
def c3Session : DbSession :=
  { pending := [⟨1, "v1", true⟩], durable := [⟨1, "v1", true⟩] }

/-! ## Preprocessing contract (`features.json` → `preprocessing` object) -/

/-- The structured preprocessing contract embedded in `features.json`.  Each
field models one key of the Python dict; the default value is what the
corresponding `.get(...)` call in predictor.py returns when the key is absent. -/
structure Preprocessing where
  input_aliases : List (String × String) := []
  skip_feature_engineering : Bool := false
  external_model : Bool := false
  categorical_features : List String := []
  target_standardization : Option String := none
  crop_column : Option String := none
  crop_statistics_file : Option String := none
deriving DecidableEq, Repr

/-- Parsed contents of `features.json`: a JSON object whose keys are read with
`.get('feature_names', [])` and `.get('preprocessing', {})`. -/
structure FeaturesJson where
  feature_names : Option (List String) := none
  preprocessing : Option Preprocessing := none
deriving DecidableEq, Repr

/-! ## Artifact store and `ModelRegistry.load_model` (`ml/model_registry.py`) -/

/-- One version directory on disk.  `none` means the file is absent.  `M` is
the type of deserialized model binaries. -/
structure VersionDir (M : Type) where
  model_pkl : Option M := none
  model_cbm : Option M := none
  features_json : Option FeaturesJson := none
  metrics_json : Option (List (String × Rat)) := none
  params_json : Option (List (String × Rat)) := none

/-- The `(model, feature_list, metadata)` return of `load_model`, with the
metadata dict's keys flattened into fields. -/
structure LoadedModel (M : Type) where
  model : M
  feature_list : List String
  preprocessing : Preprocessing
  metrics : List (String × Rat)
  params : List (String × Rat)
  artifact_format : String

/-- `os.path.exists` check plus file read: yields the contents or raises
`FileNotFoundError` with the missing path. -/
def requireFile {α : Type} (file : Option α) (name : String) : Except String α :=
  match file with
  | some a => .ok a
  | none => .error ("FileNotFoundError: Model artifact not found: " ++ name)

/-- `ModelRegistry.load_model(version_tag)` (model_registry.py:113-175) as a
function of the version directory's contents.  `catboost_available` models
whether `import catboost` succeeds. -/
def load_model {M : Type} (dir : VersionDir M) (catboost_available : Bool) :
    Except String (LoadedModel M) := do
  -- existence checks, in source order (features, metrics, params)
  let _ ← requireFile dir.features_json "features.json"
  let _ ← requireFile dir.metrics_json "metrics.json"
  let _ ← requireFile dir.params_json "params.json"
  if dir.model_pkl.isNone && dir.model_cbm.isNone then
    throw "FileNotFoundError: Model artifact not found: expected one of model.pkl or model.cbm"
  -- load model artifact by format: joblib when model.pkl exists, else CatBoost
  let loaded ← match dir.model_pkl with
    | some m => pure (m, "joblib_pkl")
    | none => do
        if !catboost_available then
          throw "ImportError: CatBoost model detected but catboost is not installed."
        let m ← requireFile dir.model_cbm "model.cbm"
        pure (m, "catboost_cbm")
  let fj ← requireFile dir.features_json "features.json"
  let metrics ← requireFile dir.metrics_json "metrics.json"
  let params ← requireFile dir.params_json "params.json"
  pure { model := loaded.1,
         feature_list := fj.feature_names.getD [],
         preprocessing := fj.preprocessing.getD {},
         metrics := metrics,
         params := params,
         artifact_format := loaded.2 }

/-- `ModelRegistry.get_production_model` (model_registry.py:196-213): returns
`none` both when the catalog has no production row and when loading the
production row's artifacts raises; `some` bundles the loaded model with its
catalog row. -/
def get_production_model {M : Type} (prod_row : Option ModelVersionRow)
    (store : String → VersionDir M) (catboost_available : Bool) :
    Option (LoadedModel M × ModelVersionRow) :=
  match prod_row with
  | none => none
  | some mv =>
      match load_model (store mv.version_tag) catboost_available with
      | .ok l => some (l, mv)
      | .error _ => none

/-- A version directory whose `metrics.json` was deleted. -/
def dirMissingMetrics : VersionDir Unit :=
  { model_pkl := some (), features_json := some {}, params_json := some [] }

/-- A version directory holding both `model.pkl` and `model.cbm`. -/
def dirBothBinaries : VersionDir String :=
  { model_pkl := some "pkl-binary", model_cbm := some "cbm-binary",
    features_json := some {}, metrics_json := some [], params_json := some [] }

/-! ## Single-row DataFrames -/

/-- A pandas cell value: a float, a string, or NaN/None. -/
inductive Val where
  | num (q : Rat)
  | str (s : String)
  | null
deriving DecidableEq, Repr

/-- A single-row DataFrame: an ordered association list of column name to cell
value (`pd.DataFrame([input_data])` keeps the dict's insertion order). -/
abbrev Row := List (String × Val)

/-- Value of a column, `none` when the column is absent. -/
def getCol (df : Row) (c : String) : Option Val :=
  (df.find? (fun p => p.1 == c)).map (fun p => p.2)

/-- `c in df.columns`. -/
def hasCol (df : Row) (c : String) : Bool :=
  (getCol df c).isSome

/-- `df[c] = v`: replaces the column in place when it exists, otherwise appends
it as the last column. -/
def setCol (df : Row) (c : String) (v : Val) : Row :=
  if hasCol df c then df.map (fun p => if p.1 == c then (c, v) else p)
  else df ++ [(c, v)]

/-- `df[c]` as an expression: raises `KeyError` when the column is absent. -/
def getColEx (df : Row) (c : String) : Except String Val :=
  match getCol df c with
  | some v => .ok v
  | none => .error ("KeyError: " ++ c)

/-! ## Feature engineering (`ml/features.py`) -/

/-- The message of the `ValueError` pandas raises when a Series is used as a
truth value. -/
def seriesAmbiguousMsg : String :=
  "ValueError: The truth value of a Series is ambiguous. " ++
    "Use a.empty, a.bool(), a.item(), a.any() or a.all()."

/-- `bool()` of a pandas Series (the implicit conversion done by
`if b != 0` when `b` is a Series): pandas raises `ValueError` unconditionally,
whatever the Series holds, including for a single-element Series. -/
def seriesToBool (_bs : List Bool) : Except String Bool :=
  .error seriesAmbiguousMsg

/-- Elementwise `v != 0` on cells: NaN and strings compare unequal to 0. -/
def valNeZero (v : Val) : Bool :=
  match v with
  | .num q => q ≠ 0
  | _ => true

/-- Elementwise float division of cells. -/
def valDiv (a b : Val) : Val :=
  match a, b with
  | .num x, .num y => .num (x / y)
  | _, _ => .null

/-- `FeatureEngineer.safe_divide` (features.py:40-42) applied at its declared
scalar type: `a / b if b != 0 else default`. -/
def safe_divide (a b defaultVal : Rat) : Rat :=
  if b ≠ 0 then a / b else defaultVal

/-- `FeatureEngineer.safe_divide` as it actually executes inside
`calculate_nutrient_ratios`, where `a` and `b` are pandas Series: evaluating
`b != 0` yields a Series and the conditional's `bool()` raises. -/
def safe_divide_series (a b : List Val) (defaultVal : Rat) : Except String (List Val) := do
  let cond ← seriesToBool (b.map valNeZero)
  if cond then pure (List.zipWith valDiv a b)
  else pure (a.map (fun _ => Val.num defaultVal))

/-- `FeatureEngineer.calculate_nutrient_ratios` (features.py:44-50) on a
single-row frame; each column is a one-element Series. -/
def calculate_nutrient_ratios (df : Row) : Except String Row := do
  let n ← getColEx df "totalN_per_ac"
  let p ← getColEx df "totalP_per_ac"
  let np ← safe_divide_series [n] [p] 0
  let df1 := setCol df "n_p_ratio" (np.headD Val.null)
  let n1 ← getColEx df1 "totalN_per_ac"
  let k ← getColEx df1 "totalK_per_ac"
  let nk ← safe_divide_series [n1] [k] 0
  let df2 := setCol df1 "n_k_ratio" (nk.headD Val.null)
  let p1 ← getColEx df2 "totalP_per_ac"
  let k1 ← getColEx df2 "totalK_per_ac"
  let pk ← safe_divide_series [p1] [k1] 0
  pure (setCol df2 "p_k_ratio" (pk.headD Val.null))

/-- `.fillna(0)` followed by numeric use of a cell. -/
def valFillNum (v : Val) : Rat :=
  match v with
  | .num q => q
  | _ => 0

/-- Elementwise multiplication of cells. -/
def valMul (a b : Val) : Val :=
  match a, b with
  | .num x, .num y => .num (x * y)
  | _, _ => .null

/-- `FeatureEngineer.calculate_intensity_features` (features.py:52-67). -/
def calculate_intensity_features (df : Row) : Except String Row := do
  let n ← getColEx df "totalN_per_ac"
  let p ← getColEx df "totalP_per_ac"
  let k ← getColEx df "totalK_per_ac"
  let total := Val.num (valFillNum n + valFillNum p + valFillNum k)
  let df1 := setCol df "total_nutrients_lb_ac" total
  let a ← getColEx df1 "acres"
  pure (setCol df1 "nutrient_x_acres" (valMul total a))

/-- One guarded interaction term: `df[dst] = df[c1] * df[c2]` when both
columns exist. -/
def addInteraction (df : Row) (c1 c2 dst : String) : Row :=
  match getCol df c1, getCol df c2 with
  | some v1, some v2 => setCol df dst (valMul v1 v2)
  | _, _ => df

/-- `FeatureEngineer.create_interactions` (features.py:164-184). -/
def create_interactions (df : Row) : Row :=
  let d1 := addInteraction df "totalN_per_ac" "acres" "N_x_acres"
  let d2 := addInteraction d1 "totalP_per_ac" "acres" "P_x_acres"
  let d3 := addInteraction d2 "totalK_per_ac" "acres" "K_x_acres"
  let d4 := addInteraction d3 "totalN_per_ac" "totalP_per_ac" "N_x_P"
  let d5 := addInteraction d4 "totalN_per_ac" "totalK_per_ac" "N_x_K"
  addInteraction d5 "totalP_per_ac" "totalK_per_ac" "P_x_K"

/-- `FeatureEngineer.encode_categoricals(df, method='frequency')`
(features.py:156-160) on a single-row frame: the one value's relative
frequency is 1.0, a NaN is dropped by `value_counts` and mapped back to NaN,
then `fillna(0)` makes it 0. -/
def encode_categoricals_frequency (df : Row) : Row :=
  ["crop", "variety", "state", "county"].foldl
    (fun d c =>
      match getCol d c with
      | some v => setCol d (c ++ "_freq")
          (match v with
           | Val.null => Val.num 0
           | _ => Val.num 1)
      | none => d) df

/-! ## Prediction service (`ml/predictor.py`) -/

/-- `base.update(extra)` on the alias dict: values of shared keys are replaced
in place, new keys are appended in `extra`'s order. -/
def updateAssoc (base extra : List (String × String)) : List (String × String) :=
  base.map (fun p =>
    match extra.find? (fun q => q.1 == p.1) with
    | some q => (p.1, q.2)
    | none => p)
  ++ extra.filter (fun q => !(base.any (fun p => p.1 == q.1)))

/-- The hard-coded alias defaults at predictor.py:109-112. -/
def defaultAliases : List (String × String) :=
  [("crop", "crop_name_en"), ("variety", "variety_name_en")]

/-- predictor.py:114-116: for each `(src, dst)` alias, copy `df[src]` to
`df[dst]` when `src` exists and `dst` does not. -/
def applyAliases (aliases : List (String × String)) (df : Row) : Row :=
  aliases.foldl
    (fun d p =>
      if hasCol d p.1 && !(hasCol d p.2) then
        setCol d p.2 ((getCol d p.1).getD Val.null)
      else d) df

/-- Steps 1-3 of `PredictionService.predict` (predictor.py:104-127): build the
input frame, apply aliases, and run feature engineering unless the contract
skips it.  The engineering branch raises before completing (see
`calculate_nutrient_ratios`), so only the skip branch can produce a frame. -/
def buildEngineered (pre : Preprocessing) (input : Row) : Except String Row := do
  let df1 := applyAliases (updateAssoc defaultAliases pre.input_aliases) input
  if pre.skip_feature_engineering || pre.external_model then
    pure df1
  else do
    let d1 ← calculate_nutrient_ratios df1
    let d2 ← calculate_intensity_features d1
    let d3 := create_interactions d2
    pure (encode_categoricals_frequency d3)

/-- The default fill for a declared feature absent from the computed frame
(predictor.py:135-139): `"Missing"` for contract-categorical features, `0.0`
otherwise. -/
def fillDefault (cat : List String) (f : String) : Val :=
  if cat.contains f then Val.str "Missing" else Val.num 0

/-- predictor.py:132-139: add every declared feature missing from the frame,
with its default value. -/
def fillMissingFeatures (fl cat : List String) (df : Row) : Row :=
  (fl.filter (fun f => !(hasCol df f))).foldl
    (fun d f => setCol d f (fillDefault cat f)) df

/-- `str()` of a cell (`.astype(str)` / `str(x)`). -/
def pyStr : Val → String
  | .num q => toString q
  | .str s => s
  | .null => "nan"

/-- Digits of a decimal string as a natural number. -/
def digitsToNat? (cs : List Char) : Option Nat :=
  if cs ≠ [] ∧ cs.all Char.isDigit then
    some (cs.foldl (fun acc c => acc * 10 + (c.toNat - 48)) 0)
  else none

/-- `pd.to_numeric(x, errors="coerce")` on a string: parses plain (optionally
signed) decimal literals, anything else coerces to NaN. -/
def parseRat (s : String) : Option Rat :=
  let (neg, body) :=
    if s.startsWith "-" then (true, s.drop 1) else (false, s)
  let mag : Option Rat :=
    match body.splitOn "." with
    | [ip] => (digitsToNat? ip.data).map (fun n => (n : Rat))
    | [ip, fp] =>
        match digitsToNat? ip.data, digitsToNat? fp.data with
        | some n, some f => some ((n : Rat) + (f : Rat) / ((10 : Rat) ^ fp.length))
        | _, _ => none
    | _ => none
  mag.map (fun q => if neg then -q else q)

/-- `fillna("Missing")` on a cell. -/
def fillNaMissing (v : Val) : Val :=
  match v with
  | Val.null => Val.str "Missing"
  | Val.num q => Val.num q
  | Val.str s => Val.str s

/-- `pd.to_numeric(x, errors="coerce").fillna(0.0)` on a cell. -/
def toNumericCoerce (v : Val) : Rat :=
  match v with
  | Val.num q => q
  | Val.str s => (parseRat s).getD 0
  | Val.null => 0

/-- Per-column type coercion (predictor.py:143-147): categorical columns get
`fillna("Missing").astype(str)`, the rest get
`pd.to_numeric(errors="coerce").fillna(0.0)`. -/
def coerceVal (isCat : Bool) (v : Val) : Val :=
  if isCat then Val.str (pyStr (fillNaMissing v))
  else Val.num (toNumericCoerce v)

/-- `df_input[self._feature_list]` (predictor.py:142): selects the declared
columns in declared order; raises `KeyError` on an absent column. -/
def selectColumns (fl : List String) (df : Row) : Except String Row :=
  if fl.all (fun c => hasCol df c) then
    .ok (fl.map (fun c => (c, (getCol df c).getD Val.null)))
  else .error "KeyError: columns missing from df_input[feature_list]"

/-- Step 4 of `predict` (predictor.py:129-147): fill the missing declared
features, reorder to `feature_list`, and coerce column types. -/
def reconcileFeatures (fl cat : List String) (df : Row) : Except String Row := do
  let df3 := fillMissingFeatures fl cat df
  let x0 ← selectColumns fl df3
  pure (x0.map (fun p => (p.1, coerceVal (cat.contains p.1) p.2)))

/-- One row of a `crop_statistics_file` CSV. -/
structure CropStat where
  crop_name_en : String
  yield_mean_crop : Rat
  yield_std_crop : Rat
deriving DecidableEq, Repr

/-- The per-version statistics files on disk: `(version_tag, file name)` to
parsed rows; `none` when the file is absent.  A file that exists but fails to
read or parse is swallowed by the `try/except` at predictor.py:169-178, which
leaves the prediction untransformed, the same net effect as `none`. -/
abbrev StatsStore := String → String → Option (List CropStat)

/-- predictor.py:156-160: the crop value used for the statistics lookup, from
the coerced frame's crop column when present, else from the raw input's
`crop` key. -/
def cropValue (pre : Preprocessing) (X input : Row) : Option String :=
  let crop_col := pre.crop_column.getD "crop_name_en"
  match getCol X crop_col with
  | some v => some (pyStr v)
  | none => (getCol input "crop").map pyStr

/-- Step 5b of `predict` (predictor.py:152-178): the optional crop z-score
back-transform.  The service always has a loaded `_model_version` here, so the
`self._model_version is not None` guard is satisfied. -/
def applyCropZscore (pre : Preprocessing) (stats : StatsStore) (tag : String)
    (X input : Row) (raw : Rat) : Rat :=
  if pre.target_standardization == some "crop_zscore" then
    match pre.crop_statistics_file, cropValue pre X input with
    | some f, some c =>
        if f ≠ "" ∧ c ≠ "" then
          match stats tag f with
          | some rows =>
              match rows.find? (fun r => r.crop_name_en == c) with
              | some st =>
                  let std := if st.yield_std_crop = 0 then 1 else st.yield_std_crop
                  raw * std + st.yield_mean_crop
              | none => raw
          | none => raw
        else raw
    | _, _ => raw
  else raw

/-- `metadata.get('metrics', {}).get('val_rmse', 10.0)` (predictor.py:184). -/
def valRmse (metrics : List (String × Rat)) : Rat :=
  ((metrics.find? (fun p => p.1 == "val_rmse")).map (fun p => p.2)).getD 10

/-- The cached state of a `PredictionService` after the model is resolved and
loaded: the declared feature list, the preprocessing contract, the stored
metrics, the version tag, and the model's `predict` on a single-row frame
(which, like any Python call, may raise). -/
structure LoadedContext where
  feature_list : List String
  preprocessing : Preprocessing
  metrics : List (String × Rat)
  version_tag : String
  model : Row → Except String Rat

/-- The dict returned by `PredictionService.predict` (predictor.py:189-195),
without the constant `base_value` entry. -/
structure PredictionResult where
  predicted_yield : Rat
  confidence_lower : Rat
  confidence_upper : Rat
  features : Row
deriving DecidableEq, Repr

/-- `PredictionService.predict(input_data)` (predictor.py:63-202) with the
model already resolved into `ctx`. -/
def predict (ctx : LoadedContext) (stats : StatsStore) (input : Row) :
    Except String PredictionResult := do
  let df2 ← buildEngineered ctx.preprocessing input
  let X ← reconcileFeatures ctx.feature_list ctx.preprocessing.categorical_features df2
  let raw ← ctx.model X
  let y := applyCropZscore ctx.preprocessing stats ctx.version_tag X input raw
  let r := valRmse ctx.metrics
  pure { predicted_yield := y,
         confidence_lower := y - 196 / 100 * r,
         confidence_upper := y + 196 / 100 * r,
         features := X }

/-- One slot of the `batch_predict` result list. -/
structure BatchItem where
  success : Bool
  predicted_yield : Option Rat
  confidence_lower : Option Rat
  confidence_upper : Option Rat
  error : Option String
deriving DecidableEq, Repr

/-- The success slot built at predictor.py:216-221. -/
def batchItemOfResult (r : PredictionResult) : BatchItem :=
  { success := true,
    predicted_yield := some r.predicted_yield,
    confidence_lower := some r.confidence_lower,
    confidence_upper := some r.confidence_upper,
    error := none }

/-- The failure slot built at predictor.py:224-228. -/
def batchItemOfError (e : String) : BatchItem :=
  { success := false,
    predicted_yield := none,
    confidence_lower := none,
    confidence_upper := none,
    error := some e }

/-- `PredictionService.batch_predict` (predictor.py:204-230): each input is
predicted under `try/except`, so a slot is a success or a failure record. -/
def batch_predict (ctx : LoadedContext) (stats : StatsStore) (inputs : List Row) :
    List BatchItem :=
  inputs.map (fun input =>
    match predict ctx stats input with
    | .ok r => batchItemOfResult r
    | .error e => batchItemOfError e)

/-- A loaded external model (feature engineering skipped) declaring one
categorical and one numeric feature. -/
def ctxC2 : LoadedContext :=
  { feature_list := ["crop_name_en", "x1"],
    preprocessing := { external_model := true,
                       categorical_features := ["crop_name_en"] },
    metrics := [],
    version_tag := "ext",
    model := fun _ => .ok 1 }

/-- An empty statistics store: every lookup misses. -/
def statsEmpty : StatsStore := fun _ _ => none

/-- The preprocessing contract of the imported CatBoost artifact used in the
C4 scenario. -/
def preC4 : Preprocessing :=
  { external_model := true,
    categorical_features := ["crop_name_en"],
    target_standardization := some "crop_zscore",
    crop_statistics_file := some "crop_stats_fao.csv" }

/-- A statistics store holding one crop-statistics file with one Corn row
(mean 150, std 20). -/
def statsC4 : StatsStore := fun tag f =>
  if tag == "ext_catboost" && f == "crop_stats_fao.csv" then
    some [⟨"Corn", 150, 20⟩]
  else none

/-- A loaded external model whose metrics dict has no `val_rmse` key. -/
def ctxC5 : LoadedContext :=
  { feature_list := [],
    preprocessing := { external_model := true },
    metrics := [("r2", 9 / 10)],
    version_tag := "v5",
    model := fun _ => .ok 100 }

/-- A loaded external model whose underlying model raises on any frame whose
`acres` cell is 0 (modelling a per-item inference exception). -/
def ctxC6 : LoadedContext :=
  { feature_list := ["acres"],
    preprocessing := { external_model := true },
    metrics := [],
    version_tag := "v6",
    model := fun X =>
      match getCol X "acres" with
      | some (Val.num 0) => .error "model raised on this item"
      | _ => .ok 100 }

/-- The three-item batch of the C6 scenario; item 2 makes the model raise. -/
def inputsC6 : List Row :=
  [[("acres", Val.num 1)], [("acres", Val.num 0)], [("acres", Val.num 2)]]

theorem prodCount_clearProduction (c : Catalog) : prodCount (clearProduction c) = 0 := by
  induction c with
  | nil => rfl
  | cons r rs ih =>
      simp only [clearProduction, List.map_cons, prodCount, List.countP_cons] at ih ⊢
      cases h : r.is_production <;> simp [h, ih, prodCount, clearProduction]

theorem prodCount_setFirstById (c : Catalog) (id : Nat) :
    prodCount (setFirstById c id) ≤ prodCount c + 1 := by
  induction c with
  | nil => simp [setFirstById]
  | cons r rs ih =>
      simp only [setFirstById]
      by_cases h : r.model_version_id == id
      · simp only [h, if_pos]
        simp only [prodCount, List.countP_cons] at ih ⊢
        cases hr : r.is_production <;> simp [hr]
      · simp only [h, if_neg, Bool.false_eq_true, not_false_eq_true]
        simp only [prodCount, List.countP_cons] at ih ⊢
        cases hr : r.is_production <;> simp [hr] <;> omega

theorem prodCount_set_production_le_one (s : DbSession) (id : Nat) :
    prodCount (set_production_model s id).1.pending ≤ 1 := by
  unfold set_production_model
  cases h : get_model_version (clearProduction s.pending) id with
  | none => simp [h, prodCount_clearProduction]
  | some mv =>
      simp only [h]
      have h1 := prodCount_setFirstById (clearProduction s.pending) id
      have h2 := prodCount_clearProduction s.pending
      omega

/-- C1: after every call in any sequence of `set_production_model` calls, at
most one ModelVersion row in the session has `is_production = true`: each call
first clears the flag on every row that has it (the bulk UPDATE at
crud.py:413-415) and only then sets the flag on the requested row. -/
theorem single_production_invariant (s : DbSession) (ids : List Nat) (h : ids ≠ []) :
    prodCount (applyCalls s ids).pending ≤ 1 := by
  induction ids generalizing s with
  | nil => exact absurd rfl h
  | cons a t ih =>
      cases t with
      | nil => exact prodCount_set_production_le_one s a
      | cons b u =>
          have : applyCalls s (a :: b :: u) = applyCalls (set_production_model s a).1 (b :: u) := rfl
          rw [this]
          exact ih _ (by simp)

/-- Witness for C1: a concrete catalog with two (corrupt) production rows and
the call sequence [2, 3] ends with at most one production row. -/
theorem single_production_invariant_witness :
    ([2, 3] : List Nat) ≠ [] ∧
      prodCount (applyCalls
        { pending := [⟨1, "v1", true⟩, ⟨2, "v2", true⟩, ⟨3, "v3", false⟩],
          durable := [⟨1, "v1", true⟩, ⟨2, "v2", true⟩, ⟨3, "v3", false⟩] }
        [2, 3]).pending ≤ 1 :=
  ⟨by decide,
   single_production_invariant
     { pending := [⟨1, "v1", true⟩, ⟨2, "v2", true⟩, ⟨3, "v3", false⟩],
       durable := [⟨1, "v1", true⟩, ⟨2, "v2", true⟩, ⟨3, "v3", false⟩] }
     [2, 3] (by decide)⟩

/-- C3 counterexample: calling `set_production_model` with the nonexistent id 2
returns `None` (the API layer then raises 404), but the session row's
`is_production` flag HAS been modified by the failed call: the bulk UPDATE
cleared it before the existence check ran, so the claim that no row's flag is
modified by the failed call is false. -/
theorem set_production_missing_mutates_flags :
    (set_production_model c3Session 2).2 = none ∧
      (set_production_model c3Session 2).1.pending = [⟨1, "v1", false⟩] ∧
      c3Session.pending = [⟨1, "v1", true⟩] := by
  refine ⟨rfl, rfl, rfl⟩

/-- C3 amended: on a nonexistent `version_id`, `set_production_model` returns
`None` (no row to report; the endpoint maps this to a 404), but only after
clearing every `is_production` flag in the session — existence is checked after
mutating, not before.  The branch never commits, so the committed (`durable`)
state is unchanged and the cleared flags are discarded when the session is
closed without commit; inside the session, zero production rows remain. -/
theorem set_production_missing_id_behavior (s : DbSession) (id : Nat)
    (h : ∀ r ∈ s.pending, r.model_version_id ≠ id) :
    (set_production_model s id).2 = none ∧
      (set_production_model s id).1.durable = s.durable ∧
      (set_production_model s id).1.pending = clearProduction s.pending ∧
      prodCount (set_production_model s id).1.pending = 0 := by
  have hfind : get_model_version (clearProduction s.pending) id = none := by
    apply List.find?_eq_none.mpr
    intro r hr
    simp only [clearProduction, List.mem_map] at hr
    obtain ⟨r0, hr0, hr0eq⟩ := hr
    have hid : r.model_version_id = r0.model_version_id := by
      subst hr0eq
      cases hb : r0.is_production <;> simp [hb]
    simp only [beq_iff_eq, hid]
    exact h r0 hr0
  simp [set_production_model, hfind, prodCount_clearProduction]

/-- Witness for the amended C3 theorem at the concrete session `c3Session` and
missing id 2. -/
theorem set_production_missing_id_behavior_witness :
    (set_production_model c3Session 2).2 = none ∧
      (set_production_model c3Session 2).1.durable = c3Session.durable ∧
      (set_production_model c3Session 2).1.pending = clearProduction c3Session.pending ∧
      prodCount (set_production_model c3Session 2).1.pending = 0 :=
  set_production_missing_id_behavior c3Session 2 (by decide)

/-- Reduction of `Except` bind on a success value. -/
@[simp] theorem bind_ok_eq {α β : Type} (a : α) (f : α → Except String β) :
    (Except.ok a >>= f : Except String β) = f a := rfl

/-- Reduction of `Except` bind on an error value. -/
@[simp] theorem bind_error_eq {α β : Type} (e : String) (f : α → Except String β) :
    (Except.error e >>= f : Except String β) = Except.error e := rfl

/-- `pure` in the `Except` monad is `Except.ok`. -/
@[simp] theorem pure_eq_ok {α : Type} (a : α) : (pure a : Except String α) = Except.ok a := rfl

/-- `throw` in the `Except` monad is `Except.error`. -/
@[simp] theorem throw_eq_error {α : Type} (e : String) :
    (throw e : Except String α) = Except.error e := rfl

/-- C7: `load_model` fails with a `FileNotFoundError` (the spec's
`ArtifactNotFound`) when `features.json`, `metrics.json` or `params.json` is
absent, or when neither `model.pkl` nor `model.cbm` is present, and it returns
the loaded triple only when all required files exist. -/
theorem load_model_requires_artifacts {M : Type} (dir : VersionDir M) (cb : Bool) :
    ((dir.features_json = none ∨ dir.metrics_json = none ∨ dir.params_json = none) →
        ∃ e, load_model dir cb = .error e) ∧
    ((dir.model_pkl = none ∧ dir.model_cbm = none) → ∃ e, load_model dir cb = .error e) ∧
    (∀ l, load_model dir cb = .ok l →
        dir.features_json.isSome ∧ dir.metrics_json.isSome ∧ dir.params_json.isSome ∧
          (dir.model_pkl.isSome ∨ dir.model_cbm.isSome)) := by
  obtain ⟨pkl, cbm, fj, mt, pr⟩ := dir
  cases fj <;> cases mt <;> cases pr <;> cases pkl <;> cases cbm <;>
    simp [load_model, requireFile]

/-- Witness for C7: loading `dirMissingMetrics` fails. -/
theorem load_model_requires_artifacts_witness :
    ∃ e, load_model dirMissingMetrics true = .error e :=
  (load_model_requires_artifacts dirMissingMetrics true).1 (Or.inr (Or.inl rfl))

/-- C10: when a version directory contains both binary encodings, `load_model`
takes the joblib branch — the returned model is the `model.pkl` contents and
`artifact_format` is `"joblib_pkl"`, and with the three JSON files present the
load succeeds; the CatBoost loader runs only when `model.pkl` is absent and
`model.cbm` is present. -/
theorem load_model_format_selection {M : Type} (dir : VersionDir M) (cb : Bool) :
    (∀ m1 m2, dir.model_pkl = some m1 → dir.model_cbm = some m2 →
      (∀ l, load_model dir cb = .ok l →
        l.model = m1 ∧ l.artifact_format = "joblib_pkl") ∧
      (∀ fj mt pr, dir.features_json = some fj → dir.metrics_json = some mt →
        dir.params_json = some pr →
          load_model dir cb = .ok { model := m1,
                                    feature_list := fj.feature_names.getD [],
                                    preprocessing := fj.preprocessing.getD {},
                                    metrics := mt, params := pr,
                                    artifact_format := "joblib_pkl" })) ∧
    (∀ l, load_model dir cb = .ok l → l.artifact_format = "catboost_cbm" →
      dir.model_pkl = none ∧ dir.model_cbm = some l.model) := by
  obtain ⟨pkl, cbm, fj, mt, pr⟩ := dir
  cases fj <;> cases mt <;> cases pr <;> cases pkl <;> cases cbm <;> cases cb <;>
    simp [load_model, requireFile]

/-- Witness for C10: with both binaries present the load returns the
`model.pkl` contents with `artifact_format = "joblib_pkl"`. -/
theorem load_model_format_selection_witness :
    load_model dirBothBinaries true = .ok { model := "pkl-binary",
                                            feature_list := [], preprocessing := {},
                                            metrics := [], params := [],
                                            artifact_format := "joblib_pkl" } :=
  ((load_model_format_selection dirBothBinaries true).1 "pkl-binary" "cbm-binary"
    rfl rfl).2 {} [] [] rfl rfl rfl

/-- C9: when the catalog names a production row whose artifact load raises,
`get_production_model` swallows the exception and returns the same all-`none`
result as when no production row exists at all. -/
theorem broken_production_artifact_indistinguishable {M : Type}
    (store : String → VersionDir M) (cb : Bool) (mv : ModelVersionRow)
    (h : ∃ e, load_model (store mv.version_tag) cb = .error e) :
    get_production_model (some mv) store cb = none ∧
      get_production_model (none : Option ModelVersionRow) store cb = none := by
  obtain ⟨e, he⟩ := h
  exact ⟨by simp [get_production_model, he], rfl⟩

/-- Witness for C9: a production row whose version directory was deleted (the
store returns an empty directory for every tag). -/
theorem broken_production_artifact_indistinguishable_witness :
    get_production_model (some ⟨1, "v1", true⟩)
        (fun _ => ({} : VersionDir Unit)) true = none ∧
      get_production_model (none : Option ModelVersionRow)
        (fun _ => ({} : VersionDir Unit)) true = none :=
  broken_production_artifact_indistinguishable (fun _ => ({} : VersionDir Unit))
    true ⟨1, "v1", true⟩ ⟨_, rfl⟩

/-! ## Lemmas about single-row frame operations -/

theorem getCol_nil (c : String) : getCol [] c = none := rfl

theorem getCol_cons (p : String × Val) (t : Row) (c : String) :
    getCol (p :: t) c = if p.1 == c then some p.2 else getCol t c := by
  by_cases h : p.1 == c <;> simp [getCol, List.find?, h]

theorem hasCol_cons (p : String × Val) (t : Row) (c : String) :
    hasCol (p :: t) c = (p.1 == c || hasCol t c) := by
  by_cases h : p.1 == c <;> simp [hasCol, getCol_cons, h]

theorem getCol_eq_none_of_hasCol_false (df : Row) (c : String)
    (h : hasCol df c = false) : getCol df c = none := by
  unfold hasCol at h
  cases h0 : getCol df c with
  | none => rfl
  | some v => rw [h0] at h; simp at h

theorem getCol_append_of_none (df1 df2 : Row) (c : String)
    (h : getCol df1 c = none) : getCol (df1 ++ df2) c = getCol df2 c := by
  induction df1 with
  | nil => rfl
  | cons p t ih =>
      rw [getCol_cons] at h
      by_cases hp : p.1 == c
      · simp [hp] at h
      · simp only [hp, if_neg, Bool.false_eq_true, not_false_eq_true] at h
        simp [getCol_cons, hp, ih h]

theorem getCol_append_of_some (df1 df2 : Row) (c : String) (v : Val)
    (h : getCol df1 c = some v) : getCol (df1 ++ df2) c = some v := by
  induction df1 with
  | nil => simp [getCol_nil] at h
  | cons p t ih =>
      rw [getCol_cons] at h
      by_cases hp : p.1 == c
      · simp only [hp, if_pos] at h
        simp [getCol_cons, hp, h]
      · simp only [hp, if_neg, Bool.false_eq_true, not_false_eq_true] at h
        simp [getCol_cons, hp, ih h]

theorem getCol_map_replace (df : Row) (c : String) (v : Val) :
    getCol (df.map (fun p => if p.1 == c then (c, v) else p)) c =
      if hasCol df c then some v else none := by
  induction df with
  | nil => simp [getCol_nil, hasCol]
  | cons p t ih =>
      by_cases h : p.1 = c
      · simp [getCol_cons, hasCol_cons, h]
      · simp [getCol_cons, hasCol_cons, h]
        simpa using ih

theorem getCol_map_replace_ne (df : Row) (c c' : String) (v : Val) (h : c' ≠ c) :
    getCol (df.map (fun p => if p.1 == c then (c, v) else p)) c' = getCol df c' := by
  induction df with
  | nil => rfl
  | cons p t ih =>
      by_cases hp : p.1 = c
      · have h1 : ¬ c = c' := fun he => h he.symm
        have h2 : ¬ p.1 = c' := by rw [hp]; exact h1
        simp [getCol_cons, hp, h1, h2]
        simpa using ih
      · by_cases hq : p.1 = c'
        · simp [getCol_cons, hp, hq, h]
        · simp [getCol_cons, hp, hq]
          simpa using ih

theorem getCol_setCol_self (df : Row) (c : String) (v : Val) :
    getCol (setCol df c v) c = some v := by
  unfold setCol
  by_cases h : hasCol df c
  · simp only [h, if_pos]
    rw [getCol_map_replace, if_pos h]
  · simp only [h, Bool.false_eq_true, if_neg, not_false_eq_true]
    rw [getCol_append_of_none _ _ _ (getCol_eq_none_of_hasCol_false df c (by simpa using h))]
    simp [getCol_cons]

theorem getCol_setCol_ne (df : Row) (c c' : String) (v : Val) (h : c' ≠ c) :
    getCol (setCol df c v) c' = getCol df c' := by
  unfold setCol
  by_cases hc : hasCol df c
  · simp only [hc, if_pos]
    exact getCol_map_replace_ne df c c' v h
  · simp only [hc, Bool.false_eq_true, if_neg, not_false_eq_true]
    cases h0 : getCol df c' with
    | some w => exact getCol_append_of_some _ _ _ _ h0
    | none =>
        rw [getCol_append_of_none _ _ _ h0]
        have h1 : (c == c') = false := by simpa using fun he => h he.symm
        simp [getCol_cons, h1, getCol_nil]

theorem getCol_foldl_setFill (l : List String) (fill : String → Val) (df : Row) (c : String) :
    getCol (l.foldl (fun d f => setCol d f (fill f)) df) c =
      if c ∈ l then some (fill c) else getCol df c := by
  induction l generalizing df with
  | nil => simp
  | cons a t ih =>
      simp only [List.foldl_cons]
      rw [ih]
      by_cases hct : c ∈ t
      · simp [hct]
      · by_cases hca : c = a
        · subst hca
          simp [hct, getCol_setCol_self]
        · simp [hct, hca, getCol_setCol_ne _ _ _ _ hca]

theorem getCol_fillMissing (fl cat : List String) (df : Row) (c : String) :
    getCol (fillMissingFeatures fl cat df) c =
      if c ∈ fl.filter (fun f => !(hasCol df f)) then some (fillDefault cat c)
      else getCol df c := by
  unfold fillMissingFeatures
  exact getCol_foldl_setFill _ _ _ _

theorem hasCol_fillMissing_of_mem (fl cat : List String) (df : Row) (c : String)
    (h : c ∈ fl) : hasCol (fillMissingFeatures fl cat df) c = true := by
  unfold hasCol
  rw [getCol_fillMissing]
  by_cases hc : hasCol df c
  · have hnot : ¬ c ∈ fl.filter (fun f => !(hasCol df f)) := by
      simp [List.mem_filter, hc]
    unfold hasCol at hc
    simp [hnot, hc]
  · have hmem : c ∈ fl.filter (fun f => !(hasCol df f)) :=
      List.mem_filter.mpr ⟨h, by simp [hc]⟩
    simp [hmem]

theorem getCol_map_graph (fl : List String) (g : String → Val) (c : String) (h : c ∈ fl) :
    getCol (fl.map (fun x => (x, g x))) c = some (g c) := by
  induction fl with
  | nil => cases h
  | cons a t ih =>
      by_cases hac : a = c
      · subst hac
        simp [getCol_cons]
      · have hct : c ∈ t := by
          cases h with
          | head => exact absurd rfl hac
          | tail _ hm => exact hm
        simp [getCol_cons, hac, ih hct]

theorem selectColumns_ok (fl : List String) (df : Row)
    (h : ∀ c ∈ fl, hasCol df c = true) :
    selectColumns fl df = .ok (fl.map (fun c => (c, (getCol df c).getD Val.null))) := by
  unfold selectColumns
  rw [if_pos]
  exact List.all_eq_true.mpr h

theorem reconcileFeatures_ok (fl cat : List String) (df : Row) :
    reconcileFeatures fl cat df = .ok (fl.map (fun c =>
      (c, coerceVal (cat.contains c)
            ((getCol (fillMissingFeatures fl cat df) c).getD Val.null)))) := by
  have hsel := selectColumns_ok fl (fillMissingFeatures fl cat df)
    (fun c hc => hasCol_fillMissing_of_mem fl cat df c hc)
  simp [reconcileFeatures, hsel, List.map_map, Function.comp]

theorem map_fst_graph (fl : List String) (g : String → Val) :
    (fl.map (fun c => (c, g c))).map Prod.fst = fl := by
  induction fl <;> simp_all

/-- Characterization of a successful `predict` run from the outcomes of its
three fallible stages. -/
theorem predict_ok_of_steps (ctx : LoadedContext) (stats : StatsStore)
    (input df2 X : Row) (raw : Rat)
    (h1 : buildEngineered ctx.preprocessing input = .ok df2)
    (h2 : reconcileFeatures ctx.feature_list
      ctx.preprocessing.categorical_features df2 = .ok X)
    (h3 : ctx.model X = .ok raw) :
    predict ctx stats input = .ok
      { predicted_yield :=
          applyCropZscore ctx.preprocessing stats ctx.version_tag X input raw,
        confidence_lower :=
          applyCropZscore ctx.preprocessing stats ctx.version_tag X input raw
            - 196 / 100 * valRmse ctx.metrics,
        confidence_upper :=
          applyCropZscore ctx.preprocessing stats ctx.version_tag X input raw
            + 196 / 100 * valRmse ctx.metrics,
        features := X } := by
  simp [predict, h1, h2, h3]

/-- C2: whenever `predict` reaches the reconciliation step (predictor.py
129-147), the step never raises; the frame handed to the model has exactly the
columns of `feature_list` in exactly `feature_list`'s order; every declared
feature absent from the computed frame is filled with `"Missing"` when listed
in the contract's `categorical_features` and with `0.0` otherwise; and for
contracts that skip feature engineering the whole pipeline up to model
inference completes.  So a missing declared feature never causes `predict` to
raise. -/
theorem predict_feature_reconciliation (ctx : LoadedContext) (stats : StatsStore)
    (input : Row) :
    (∀ df2, buildEngineered ctx.preprocessing input = .ok df2 →
      ∃ X, reconcileFeatures ctx.feature_list
          ctx.preprocessing.categorical_features df2 = .ok X ∧
        X.map Prod.fst = ctx.feature_list ∧
        (∀ f ∈ ctx.feature_list, hasCol df2 f = false →
          getCol X f = some (if f ∈ ctx.preprocessing.categorical_features
                             then Val.str "Missing" else Val.num 0)) ∧
        (∀ raw, ctx.model X = .ok raw →
          ∃ r, predict ctx stats input = .ok r ∧ r.features = X)) ∧
    ((ctx.preprocessing.skip_feature_engineering ||
        ctx.preprocessing.external_model) = true →
      ∃ df2, buildEngineered ctx.preprocessing input = .ok df2) := by
  constructor
  · intro df2 h2
    refine ⟨_, reconcileFeatures_ok ctx.feature_list
      ctx.preprocessing.categorical_features df2, ?_, ?_, ?_⟩
    · exact map_fst_graph _ _
    · intro f hf habs
      rw [getCol_map_graph _ _ _ hf, getCol_fillMissing]
      have hmem : f ∈ ctx.feature_list.filter
          (fun x => !(hasCol df2 x)) :=
        List.mem_filter.mpr ⟨hf, by simp [habs]⟩
      rw [if_pos hmem]
      by_cases hc : f ∈ ctx.preprocessing.categorical_features <;>
        simp [fillDefault, coerceVal, fillNaMissing, toNumericCoerce, pyStr, hc]
    · intro raw hm
      exact ⟨_, predict_ok_of_steps ctx stats input df2 _ raw h2
        (reconcileFeatures_ok ctx.feature_list
          ctx.preprocessing.categorical_features df2) hm, rfl⟩
  · intro hskip
    exact ⟨applyAliases (updateAssoc defaultAliases ctx.preprocessing.input_aliases) input,
      by simp [buildEngineered, hskip]⟩

/-- Witness for C2 at a concrete input missing both declared features: the
reconciled frame is exactly `feature_list`-ordered with the categorical
feature filled with "Missing" and the numeric one with 0.0. -/
theorem predict_feature_reconciliation_witness :
    ∃ X, reconcileFeatures ctxC2.feature_list
        ctxC2.preprocessing.categorical_features [("acres", Val.num 1)] = .ok X ∧
      X.map Prod.fst = ctxC2.feature_list ∧
      (∀ f ∈ ctxC2.feature_list, hasCol [("acres", Val.num 1)] f = false →
        getCol X f = some (if f ∈ ctxC2.preprocessing.categorical_features
                           then Val.str "Missing" else Val.num 0)) ∧
      (∀ raw, ctxC2.model X = .ok raw →
        ∃ r, predict ctxC2 statsEmpty [("acres", Val.num 1)] = .ok r ∧
          r.features = X) :=
  (predict_feature_reconciliation ctxC2 statsEmpty [("acres", Val.num 1)]).1
    [("acres", Val.num 1)] rfl

/-- C8 (code bug): the claimed safe-division semantics hold for
`safe_divide` at its declared scalar type (dividing by 0 yields the 0.0
default), but `calculate_nutrient_ratios` hands `safe_divide` pandas Series,
and evaluating `if b != 0` on a Series raises `ValueError` — so the nutrient
ratio computation raises for every input frame, including the claimed
`totalP_per_ac = 0` case, instead of producing `n_p_ratio = 0.0`. -/
theorem nutrient_ratio_series_truthiness (df : Row) :
    safe_divide 10 0 0 = 0 ∧
    (∃ e, calculate_nutrient_ratios df = .error e) ∧
    calculate_nutrient_ratios
        [("totalN_per_ac", Val.num 10), ("totalP_per_ac", Val.num 0),
         ("totalK_per_ac", Val.num 5), ("acres", Val.num 40)] =
      .error seriesAmbiguousMsg := by
  refine ⟨by norm_num [safe_divide], ?_, rfl⟩
  cases h1 : getCol df "totalN_per_ac" with
  | none =>
      exact ⟨"KeyError: totalN_per_ac",
        by simp [calculate_nutrient_ratios, getColEx, h1]⟩
  | some n =>
      cases h2 : getCol df "totalP_per_ac" with
      | none =>
          exact ⟨"KeyError: totalP_per_ac",
            by simp [calculate_nutrient_ratios, getColEx, h1, h2]⟩
      | some p =>
          exact ⟨seriesAmbiguousMsg,
            by simp [calculate_nutrient_ratios, getColEx, h1, h2,
              safe_divide_series, seriesToBool]⟩

/-- C4: under a `crop_zscore` contract a successful per-crop statistics lookup
back-transforms the raw model output into `raw * std + mean` with a zero `std`
replaced by 1; a missing statistics file or a missing crop row leaves the raw
prediction untransformed; and the transform is a total function applied inside
a successful `predict` run, so no exception is raised by it. -/
theorem predict_crop_zscore_backtransform :
    (∀ (pre : Preprocessing) (stats : StatsStore) (tag : String) (X input : Row)
       (raw : Rat) (f c : String) (rows : List CropStat) (st : CropStat),
      pre.target_standardization = some "crop_zscore" →
      pre.crop_statistics_file = some f → f ≠ "" →
      cropValue pre X input = some c → c ≠ "" →
      stats tag f = some rows →
      rows.find? (fun r => r.crop_name_en == c) = some st →
      applyCropZscore pre stats tag X input raw =
        raw * (if st.yield_std_crop = 0 then 1 else st.yield_std_crop)
          + st.yield_mean_crop) ∧
    (∀ (pre : Preprocessing) (stats : StatsStore) (tag : String) (X input : Row)
       (raw : Rat) (f : String),
      pre.crop_statistics_file = some f → stats tag f = none →
      applyCropZscore pre stats tag X input raw = raw) ∧
    (∀ (pre : Preprocessing) (stats : StatsStore) (tag : String) (X input : Row)
       (raw : Rat) (f c : String) (rows : List CropStat),
      pre.crop_statistics_file = some f → cropValue pre X input = some c →
      stats tag f = some rows →
      rows.find? (fun r => r.crop_name_en == c) = none →
      applyCropZscore pre stats tag X input raw = raw) ∧
    (∀ (ctx : LoadedContext) (stats : StatsStore) (input df2 X : Row) (raw : Rat),
      buildEngineered ctx.preprocessing input = .ok df2 →
      reconcileFeatures ctx.feature_list
        ctx.preprocessing.categorical_features df2 = .ok X →
      ctx.model X = .ok raw →
      ∃ r, predict ctx stats input = .ok r ∧
        r.predicted_yield =
          applyCropZscore ctx.preprocessing stats ctx.version_tag X input raw) := by
  refine ⟨?_, ?_, ?_, ?_⟩
  · intro pre stats tag X input raw f c rows st hts hfile hf hcrop hc hstats hfind
    simp [applyCropZscore, hts, hfile, hcrop, hstats, hfind, hf, hc]
  · intro pre stats tag X input raw f hfile hstats
    unfold applyCropZscore
    by_cases hts : pre.target_standardization == some "crop_zscore"
    · simp only [hts, if_pos]
      rw [hfile]
      cases hcrop : cropValue pre X input with
      | none => rfl
      | some c =>
          by_cases hfc : f ≠ "" ∧ c ≠ ""
          · simp [hfc, hstats]
          · simp [hfc]
    · simp [hts]
  · intro pre stats tag X input raw f c rows hfile hcrop hstats hfind
    unfold applyCropZscore
    by_cases hts : pre.target_standardization == some "crop_zscore"
    · simp only [hts, if_pos]
      rw [hfile, hcrop]
      by_cases hfc : f ≠ "" ∧ c ≠ ""
      · simp [hfc, hstats, hfind]
      · simp [hfc]
    · simp [hts]
  · intro ctx stats input df2 X raw h1 h2 h3
    exact ⟨_, predict_ok_of_steps ctx stats input df2 X raw h1 h2 h3, rfl⟩

/-- Witness for C4: raw model output 0.5 with stats mean 150, std 20 yields
0.5 * 20 + 150 = 160. -/
theorem predict_crop_zscore_backtransform_witness :
    applyCropZscore preC4 statsC4 "ext_catboost"
      [("crop_name_en", Val.str "Corn"), ("x1", Val.num 3)]
      [("crop", Val.str "Corn"), ("x1", Val.num 3)] (1 / 2) = 160 := by
  have h := predict_crop_zscore_backtransform.1 preC4 statsC4 "ext_catboost"
    [("crop_name_en", Val.str "Corn"), ("x1", Val.num 3)]
    [("crop", Val.str "Corn"), ("x1", Val.num 3)] (1 / 2)
    "crop_stats_fao.csv" "Corn" [⟨"Corn", 150, 20⟩] ⟨"Corn", 150, 20⟩
    rfl rfl (by decide) rfl (by decide) rfl rfl
  rw [h]
  norm_num

/-- C5: a successful `predict` run reports
`confidence_lower = predicted_yield - 1.96 * val_rmse` and
`confidence_upper = predicted_yield + 1.96 * val_rmse`, with `val_rmse` taken
from the stored metrics under key `val_rmse`, and 10.0 when that key is
absent — in which case the interval width is 39.2. -/
theorem predict_confidence_interval (ctx : LoadedContext) (stats : StatsStore)
    (input : Row) (r : PredictionResult)
    (h : predict ctx stats input = .ok r) :
    (∀ v, (ctx.metrics.find? (fun p => p.1 == "val_rmse")).map (fun p => p.2)
        = some v →
      r.confidence_lower = r.predicted_yield - 196 / 100 * v ∧
      r.confidence_upper = r.predicted_yield + 196 / 100 * v) ∧
    (ctx.metrics.find? (fun p => p.1 == "val_rmse") = none →
      r.confidence_lower = r.predicted_yield - 196 / 100 * 10 ∧
      r.confidence_upper = r.predicted_yield + 196 / 100 * 10 ∧
      r.confidence_upper - r.confidence_lower = 196 / 5) := by
  have hbase : r.confidence_lower = r.predicted_yield - 196 / 100 * valRmse ctx.metrics ∧
      r.confidence_upper = r.predicted_yield + 196 / 100 * valRmse ctx.metrics := by
    unfold predict at h
    cases h1 : buildEngineered ctx.preprocessing input with
    | error e => rw [h1] at h; simp at h
    | ok df2 =>
        rw [h1, bind_ok_eq] at h
        cases h2 : reconcileFeatures ctx.feature_list
            ctx.preprocessing.categorical_features df2 with
        | error e => rw [h2] at h; simp at h
        | ok X =>
            rw [h2, bind_ok_eq] at h
            cases h3 : ctx.model X with
            | error e => rw [h3] at h; simp at h
            | ok raw =>
                rw [h3, bind_ok_eq, pure_eq_ok] at h
                have hr := (Except.ok.injEq _ _).mp h
                rw [← hr]
                constructor <;> rfl
  constructor
  · intro v hv
    have : valRmse ctx.metrics = v := by simp [valRmse, hv]
    rw [this] at hbase
    exact hbase
  · intro hnone
    have h10 : valRmse ctx.metrics = 10 := by simp [valRmse, hnone]
    rw [h10] at hbase
    refine ⟨hbase.1, hbase.2, ?_⟩
    rw [hbase.1, hbase.2]
    ring_nf

/-- Witness for C5: with `val_rmse` absent the interval is
100 ± 1.96 * 10, of width 39.2. -/
theorem predict_confidence_interval_witness :
    predict ctxC5 statsEmpty [] =
      .ok ⟨100, 100 - 196 / 100 * 10, 100 + 196 / 100 * 10, []⟩ ∧
    (⟨100, 100 - 196 / 100 * 10, 100 + 196 / 100 * 10,
        ([] : Row)⟩ : PredictionResult).confidence_upper -
      (⟨100, 100 - 196 / 100 * 10, 100 + 196 / 100 * 10,
        ([] : Row)⟩ : PredictionResult).confidence_lower = 196 / 5 :=
  ⟨rfl,
   ((predict_confidence_interval ctxC5 statsEmpty []
      ⟨100, 100 - 196 / 100 * 10, 100 + 196 / 100 * 10, []⟩ rfl).2 rfl).2.2⟩

/-- C6: `batch_predict` returns one slot per input, in order; a slot is the
failure record `{success := false, error := e}` exactly when `predict` raises
on that input, and the success record with that input's yield and interval
otherwise — slot `i` depends only on input `i`, so one item's failure never
aborts the batch. -/
theorem batch_predict_isolation (ctx : LoadedContext) (stats : StatsStore)
    (inputs : List Row) :
    (batch_predict ctx stats inputs).length = inputs.length ∧
    ∀ (i : Nat) (hi : i < inputs.length)
      (hi' : i < (batch_predict ctx stats inputs).length),
      (batch_predict ctx stats inputs).get ⟨i, hi'⟩ =
        match predict ctx stats (inputs.get ⟨i, hi⟩) with
        | .ok r => batchItemOfResult r
        | .error e => batchItemOfError e := by
  constructor
  · simp [batch_predict]
  · intro i hi hi'
    simp [batch_predict, List.get_eq_getElem]

/-- Witness for C6: the batch of 3 yields 3 slots; slot 2 is the failure
record, slots 1 and 3 are success records with their yields. -/
theorem batch_predict_isolation_witness :
    (batch_predict ctxC6 statsEmpty inputsC6).length = inputsC6.length ∧
    (batch_predict ctxC6 statsEmpty inputsC6).get ⟨1, by decide⟩ =
      batchItemOfError "model raised on this item" ∧
    (batch_predict ctxC6 statsEmpty inputsC6).get ⟨0, by decide⟩ =
      batchItemOfResult ⟨100, 100 - 196 / 100 * 10, 100 + 196 / 100 * 10,
        [("acres", Val.num 1)]⟩ ∧
    (batch_predict ctxC6 statsEmpty inputsC6).get ⟨2, by decide⟩ =
      batchItemOfResult ⟨100, 100 - 196 / 100 * 10, 100 + 196 / 100 * 10,
        [("acres", Val.num 2)]⟩ := by
  obtain ⟨hlen, hidx⟩ := batch_predict_isolation ctxC6 statsEmpty inputsC6
  exact ⟨hlen, hidx 1 (by decide) (by decide), hidx 0 (by decide) (by decide),
    hidx 2 (by decide) (by decide)⟩

end TraitAI
